import Mathlib

/-!
Verification of the docker-flow-proxy reconfiguration/removal engine spec
against the repository's code.  The repository holds the Go test suite for
the HTTP server (`server_test.go`) and `actions/util.go`; the server
implementation itself is not among the source files, so it is modelled from
the specification, with every behaviour that a test of the repository pins
followed exactly.  Strings are embedded as Lean `String`s; Go runes are
embedded as their `Nat` code points where Unicode case folding matters.
-/

/--
Go `unicode.SimpleFold` equivalence of a rune `r` against a lowercase-ASCII
letter `c` (code points): the orbit of a lowercase ASCII letter contains the
letter itself and its uppercase form, plus, for `s` (115), U+017F LATIN SMALL
LETTER LONG S, and, for `k` (107), U+212A KELVIN SIGN.  These are the only
multi-member simple-fold orbits that meet the ASCII lowercase letters, per
Go's `unicode` case-orbit table.
-/
def foldMatchesLowerAscii (r c : Nat) : Bool :=
  r == c || r + 32 == c || (c == 115 && r == 0x17F) || (c == 107 && r == 0x212A)

/--
Go `strings.EqualFold`, specialised to a second argument made of lowercase
ASCII letters (the only way `actions/util.go` calls it: the literals
`"service"` and `"swarm"`).  Rune streams must have equal length and each
rune of the first must fold to the corresponding rune of the second.
-/
def equalFoldLowerAscii : List Nat → List Nat → Bool
  | [], [] => true
  | r :: rs, c :: cs => foldMatchesLowerAscii r c && equalFoldLowerAscii rs cs
  | _, _ => false

/-- The code points of a string, in order (Go iterates runes of a UTF-8 string). -/
def strCodes (s : String) : List Nat :=
  s.data.map Char.toNat

/--
From `src/actions/util.go`:
`isSwarm(mode) = strings.EqualFold(mode, "service") || strings.EqualFold(mode, "swarm")`.
-/
def isSwarm (mode : String) : Bool :=
  equalFoldLowerAscii (strCodes mode) (strCodes "service") ||
  equalFoldLowerAscii (strCodes mode) (strCodes "swarm")

/-- ASCII case folding of one code point: uppercase ASCII letters map to
their lowercase forms; every other code point is unchanged. -/
def asciiToLowerN (n : Nat) : Nat :=
  if 65 ≤ n ∧ n ≤ 90 then n + 32 else n

/-- Equality of two strings under ASCII case folding (the spec's notion of
case-insensitive mode comparison). -/
def asciiFoldEq (s t : String) : Bool :=
  (strCodes s).map asciiToLowerN == (strCodes t).map asciiToLowerN

/-- Whether the character list `s` starts with the pattern `p`. -/
def startsWith : List Char → List Char → Bool
  | _, [] => true
  | [], _ :: _ => false
  | c :: cs, p :: ps => c == p && startsWith cs ps

/-- Whether the pattern `p` occurs as a contiguous run inside `s`. -/
def containsStr (s p : List Char) : Bool :=
  match s with
  | [] => startsWith [] p
  | _ :: rest => startsWith s p || containsStr rest p

/-- Whether an address already carries a URL scheme (a `://` separator). -/
def hasUrlScheme (a : String) : Bool :=
  containsStr a.data "://".data

/--
Modelled from the spec: startup normalization of one registry address —
"each prefixed with a scheme if missing" (§3 BaseReconfigure), pinned by
`Test_Execute_AddsHttpToConsulAddresses`: an address without a scheme gets
`http://` prepended, an address with one is left unchanged.
-/
def normalizeAddress (a : String) : String :=
  if hasUrlScheme a then a else "http://" ++ a

/-- Normalization of the whole configured address list, in order. -/
def normalizeAddresses (l : List String) : List String :=
  l.map normalizeAddress

/-- Go `strings.Split(s, ",")` on the character list of a non-empty string:
comma-separated groups, in order, empty groups kept. -/
def splitComma : List Char → List (List Char)
  | [] => [[]]
  | c :: rest =>
      let groups := splitComma rest
      if c = ',' then [] :: groups
      else (c :: groups.headD []) :: groups.tail

/--
Modelled from the spec: the `CONSUL_ADDRESS` handling of `Serve.Execute`
(not under `src/`), pinned by the `Test_Execute_Sets*ConsulAddress*` tests:
when the variable is unset or empty the list is the empty slice; otherwise
the value is split on commas and each piece is scheme-normalized.
-/
def parseConsulAddresses (env : String) : List String :=
  if env = "" then []
  else normalizeAddresses ((splitComma env.data).map (fun cs => String.mk cs))

/-- The shared per-process configuration of the server (`Serve` fields the
startup path reads). -/
structure ServeConfig where
  mode : String := ""
  instanceName : String := ""
  listenerAddress : String := ""

/-- The argument tuple of a `ReloadAllServices` invocation. -/
structure ReloadCall where
  addresses : List String
  instanceName : String
  mode : String
  listenerAddress : String
deriving DecidableEq, Repr

/-- What `Serve.Execute` leaves behind: the normalized registry address list
and the bulk-reload invocation, if any. -/
structure ServeExecResult where
  consulAddresses : List String
  reloadAllServices : Option ReloadCall
deriving DecidableEq, Repr

/-- The listener address passed to the bulk reload: empty when unset,
otherwise `http://<addr>:8080` (pinned by
`Test_Execute_InvokesReloadAllServicesWithListenerAddress`). -/
def listenerUrl (listenerAddress : String) : String :=
  if listenerAddress = "" then "" else "http://" ++ listenerAddress ++ ":8080"

/--
Modelled from the spec: `Serve.Execute` bootstrap (not under `src/`) —
parses `CONSUL_ADDRESS`, then runs the bulk `ReloadAllServices` pass, which
is "skipped entirely when Mode is service/swarm and no registry addresses
are configured" (§4.4), pinned by `Test_Execute_InvokesReloadAllServices`
and the two `Test_Execute_DoesNotInvokeReloadAllServices_*` tests.
-/
def serveExecute (cfg : ServeConfig) (consulAddressEnv : String) : ServeExecResult :=
  if isSwarm cfg.mode = true ∧ parseConsulAddresses consulAddressEnv = [] then
    { consulAddresses := parseConsulAddresses consulAddressEnv, reloadAllServices := none }
  else
    { consulAddresses := parseConsulAddresses consulAddressEnv,
      reloadAllServices := some ⟨parseConsulAddresses consulAddressEnv, cfg.instanceName,
                                 cfg.mode, listenerUrl cfg.listenerAddress⟩ }

/--
The per-request service descriptor (spec §3 `ServiceReconfigure`), as parsed
from the reconfigure request's query parameters.  Field defaults are the Go
zero values of the struct.
-/
structure ServiceReconfigure where
  serviceName : String := ""
  serviceColor : String := ""
  serviceDomain : List String := []
  servicePath : List String := []
  pathType : String := ""
  outboundHostname : String := ""
  reqRepSearch : String := ""
  reqRepReplace : String := ""
  templateFePath : String := ""
  templateBePath : String := ""
  consulTemplateFePath : String := ""
  consulTemplateBePath : String := ""
  users : List (String × String) := []
  aclName : String := ""
  port : String := ""
  skipCheck : Bool := false
  serviceCert : String := ""
deriving DecidableEq, Repr

/-- The collaborator invocations a request handler can make, in order. -/
inductive Effect where
  /-- Local `ReconfigureEngine.Execute` on a descriptor. -/
  | reconfigureExec (sr : ServiceReconfigure)
  /-- Local `RemoveEngine.Execute` on a service name and ACL name. -/
  | removeExec (serviceName aclName : String)
  /-- `PeerDistributor` fan-out of the inbound request to all peers. -/
  | distributeFanOut
  /-- Certificate install for a service certificate carried by the request. -/
  | putCert (certName certContent : String)
  /-- Certificate store `Put` (the PUT /cert endpoint). -/
  | certStorePut
  /-- Certificate store `GetAll` (the GET /certs endpoint). -/
  | certStoreGetAll
deriving DecidableEq, Repr

/-- A handler outcome: the HTTP status written and the collaborator
invocations made, in order. -/
structure HandlerResult where
  status : Nat
  effects : List Effect
deriving DecidableEq, Repr

/-- The external-collaborator outcomes a request runs against: the result of
each discovered peer call (`true` = success), the result of the local engine
`Execute`, and the server's configured mode. -/
structure World where
  peerResults : List Bool := []
  engineOk : Bool := true
  mode : String := ""

/-- Unescape `\n` sequences of an inline service certificate (pinned by
`Test_ServeHTTP_InvokesPutCert_WhenServiceCertIsPresent`). -/
def decodeNewlines : List Char → List Char
  | '\\' :: 'n' :: rest => '\n' :: decodeNewlines rest
  | c :: rest => c :: decodeNewlines rest
  | [] => []

/--
Modelled from the spec: validity of a reconfigure request (the handler is
not under `src/`).  `ServiceName` is required (§3); `ServicePath` is
"required unless the mode implies health-check-port based derivation" (§3),
and a request supplying both Consul template paths is also valid with an
empty `ServicePath`, pinned by
`Test_ServeHTTP_ReturnsJson_WhenConsulTemplatePathIsPresent` and
`Test_ServeHTTP_InvokesReconfigureExecute_WhenConsulTemplatePathIsPresent`.
-/
def isValidReconf (mode : String) (sr : ServiceReconfigure) : Bool :=
  if sr.serviceName = "" then false
  else if sr.servicePath ≠ [] then true
  else if sr.consulTemplateFePath ≠ "" ∧ sr.consulTemplateBePath ≠ "" then true
  else if isSwarm mode = true ∧ sr.port ≠ "" then true
  else false

/-- The certificate-install invocations of a local reconfigure: the
certificate is associated with the first domain when `ServiceDomain` is set,
else with `ServiceName` (§3 `ServiceCert`). -/
def certEffects (sr : ServiceReconfigure) : List Effect :=
  if sr.serviceCert = "" then []
  else if sr.serviceDomain ≠ [] then
    [Effect.putCert (sr.serviceDomain.headD "") (String.mk (decodeNewlines sr.serviceCert.data))]
  else
    [Effect.putCert sr.serviceName (String.mk (decodeNewlines sr.serviceCert.data))]

/-- Aggregate status of a peer fan-out: failure (500) when at least one peer
call failed, success (200) otherwise (§4.6 aggregation policy). -/
def distributeStatus (peerResults : List Bool) : Nat :=
  if peerResults.all (fun b => b) = true then 200 else 500

/--
Modelled from the spec: the reconfigure request handler (not under `src/`).
An invalid descriptor, or a service/swarm mode without a port, is rejected
with 400 before any side effect (§7 ValidationError); a request with the
distribute flag only invokes the peer fan-out, never the local engine
(§4.6); otherwise the certificate (if any) is installed and the local
`ReconfigureEngine.Execute` runs, its failure reported as 500.
-/
def reconfigureHandler (w : World) (sr : ServiceReconfigure) (distribute : Bool) :
    HandlerResult :=
  if isValidReconf w.mode sr = false then ⟨400, []⟩
  else if isSwarm w.mode = true ∧ sr.port = "" then ⟨400, []⟩
  else if distribute = true then
    ⟨distributeStatus w.peerResults, [Effect.distributeFanOut]⟩
  else if w.engineOk = true then ⟨200, certEffects sr ++ [Effect.reconfigureExec sr]⟩
  else ⟨500, certEffects sr ++ [Effect.reconfigureExec sr]⟩

/--
Modelled from the spec: the remove request handler (not under `src/`).
A missing service name is rejected with 400 (§3 invariants); a distribute
request only invokes the peer fan-out (§4.6); otherwise the local
`RemoveEngine.Execute` runs, its failure reported as 500.
-/
def removeHandler (w : World) (serviceName aclName : String) (distribute : Bool) :
    HandlerResult :=
  if serviceName = "" then ⟨400, []⟩
  else if distribute = true then
    ⟨distributeStatus w.peerResults, [Effect.distributeFanOut]⟩
  else if w.engineOk = true then ⟨200, [Effect.removeExec serviceName aclName]⟩
  else ⟨500, [Effect.removeExec serviceName aclName]⟩

/-- An inbound HTTP request, with its query parameters already parsed into a
descriptor.  Defaults are the Go zero values. -/
structure Request where
  method : String := "GET"
  path : String := ""
  sr : ServiceReconfigure := {}
  distribute : Bool := false

/--
Modelled from the spec: the URL dispatch of `Serve.ServeHTTP` (not under
`src/`), pinned by the `Test_ServeHTTP_*` tests: `/cert` accepts only PUT
and otherwise answers 404 without touching the certificate store; `/certs`
lists certificates; v1/v2 reconfigure and remove go to their handlers;
`/v1/test` and `/v2/test` answer 200; anything else answers 404.
-/
def serveHTTP (w : World) (req : Request) : HandlerResult :=
  if req.path = "/v1/docker-flow-proxy/cert" then
    if req.method = "PUT" then ⟨200, [Effect.certStorePut]⟩ else ⟨404, []⟩
  else if req.path = "/v1/docker-flow-proxy/certs" then ⟨200, [Effect.certStoreGetAll]⟩
  else if req.path = "/v1/docker-flow-proxy/reconfigure" ∨
          req.path = "/v2/docker-flow-proxy/reconfigure" then
    reconfigureHandler w req.sr req.distribute
  else if req.path = "/v1/docker-flow-proxy/remove" ∨
          req.path = "/v2/docker-flow-proxy/remove" then
    removeHandler w req.sr.serviceName req.sr.aclName req.distribute
  else if req.path = "/v1/test" ∨ req.path = "/v2/test" then ⟨200, []⟩
  else ⟨404, []⟩

/-- The `ConfigStore` (§4.2): fragment pairs keyed uniquely by service name;
here each entry keeps the descriptor the fragments were generated from. -/
abbrev ConfigStore := List (String × ServiceReconfigure)

/-- `ConfigStore` upsert: a second entry for the same name replaces the
first in place; a new name is appended (§4.2 invariant). -/
def upsertStore (store : ConfigStore) (sr : ServiceReconfigure) : ConfigStore :=
  if store.any (fun p => p.1 = sr.serviceName) then
    store.map (fun p => if p.1 = sr.serviceName then (p.1, sr) else p)
  else store ++ [(sr.serviceName, sr)]

/-- `ConfigStore` removal: drops the named entry; a no-op on a miss (§4.2). -/
def removeFromStore (store : ConfigStore) (serviceName : String) : ConfigStore :=
  store.filter (fun p => p.1 ≠ serviceName)

/-- How one collaborator invocation acts on the `ConfigStore`: only the two
engine executions mutate it. -/
def applyEffect (store : ConfigStore) : Effect → ConfigStore
  | Effect.reconfigureExec sr => upsertStore store sr
  | Effect.removeExec name _ => removeFromStore store name
  | _ => store

/-- The `ConfigStore` after a handler's invocations have run, in order. -/
def applyEffects (store : ConfigStore) (effs : List Effect) : ConfigStore :=
  effs.foldl applyEffect store

/-! ### Helper lemmas -/

lemma splitComma_ne_nil (cs : List Char) : splitComma cs ≠ [] := by
  cases cs with
  | nil => simp [splitComma]
  | cons c rest =>
      simp only [splitComma]
      split <;> simp

lemma parseConsulAddresses_ne_nil (env : String) (h : env ≠ "") :
    parseConsulAddresses env ≠ [] := by
  unfold parseConsulAddresses normalizeAddresses
  rw [if_neg h]
  simp only [ne_eq, List.map_eq_nil_iff]
  exact splitComma_ne_nil env.data

lemma distributeStatus_of_failure (l : List Bool) (h : false ∈ l) :
    distributeStatus l = 500 := by
  have hall : l.all (fun b => b) = false := by
    rw [List.all_eq_false]
    exact ⟨false, h, by simp⟩
  simp [distributeStatus, hall]

lemma isValidReconf_serviceName_ne (mode : String) (sr : ServiceReconfigure)
    (hv : isValidReconf mode sr = true) : sr.serviceName ≠ "" := by
  intro h
  unfold isValidReconf at hv
  rw [if_pos h] at hv
  exact Bool.false_ne_true hv

lemma serveHTTP_reconfigure_eq (w : World) (req : Request)
    (h : req.path = "/v1/docker-flow-proxy/reconfigure" ∨
         req.path = "/v2/docker-flow-proxy/reconfigure") :
    serveHTTP w req = reconfigureHandler w req.sr req.distribute := by
  unfold serveHTTP
  rcases h with h | h <;> rw [h] <;> simp

lemma serveHTTP_remove_eq (w : World) (req : Request)
    (h : req.path = "/v1/docker-flow-proxy/remove" ∨
         req.path = "/v2/docker-flow-proxy/remove") :
    serveHTTP w req = removeHandler w req.sr.serviceName req.sr.aclName req.distribute := by
  unfold serveHTTP
  rcases h with h | h <;> rw [h] <;> simp

lemma serveHTTP_cert_eq (w : World) (req : Request)
    (h : req.path = "/v1/docker-flow-proxy/cert") :
    serveHTTP w req =
      if req.method = "PUT" then ⟨200, [Effect.certStorePut]⟩ else ⟨404, []⟩ := by
  unfold serveHTTP
  rw [h]
  simp

lemma reconfigureHandler_distribute_effects (w : World) (sr : ServiceReconfigure) :
    ∀ e ∈ (reconfigureHandler w sr true).effects, e = Effect.distributeFanOut := by
  unfold reconfigureHandler
  split_ifs <;> simp_all

lemma removeHandler_distribute_effects (w : World) (name acl : String) :
    ∀ e ∈ (removeHandler w name acl true).effects, e = Effect.distributeFanOut := by
  unfold removeHandler
  split_ifs <;> simp_all

lemma reconfigureHandler_distribute_valid (w : World) (sr : ServiceReconfigure)
    (hv : isValidReconf w.mode sr = true)
    (hp : ¬(isSwarm w.mode = true ∧ sr.port = "")) :
    reconfigureHandler w sr true =
      ⟨distributeStatus w.peerResults, [Effect.distributeFanOut]⟩ := by
  unfold reconfigureHandler
  rw [if_neg (by simp [hv]), if_neg hp, if_pos rfl]

lemma removeHandler_distribute_valid (w : World) (name acl : String)
    (hn : name ≠ "") :
    removeHandler w name acl true =
      ⟨distributeStatus w.peerResults, [Effect.distributeFanOut]⟩ := by
  unfold removeHandler
  rw [if_neg hn, if_pos rfl]

lemma equalFold_of_asciiFold : ∀ rs cs : List Nat,
    (∀ c ∈ cs, 97 ≤ c ∧ c ≤ 122) → rs.map asciiToLowerN = cs →
    equalFoldLowerAscii rs cs = true := by
  intro rs
  induction rs with
  | nil =>
      intro cs _ hmap
      simp only [List.map_nil] at hmap
      rw [← hmap]
      rfl
  | cons r rs ih =>
      intro cs hlow hmap
      cases cs with
      | nil => simp at hmap
      | cons c cs' =>
          simp only [List.map_cons, List.cons.injEq] at hmap
          obtain ⟨h1, h2⟩ := hmap
          have hc := hlow c (by simp)
          unfold equalFoldLowerAscii
          rw [Bool.and_eq_true]
          constructor
          · unfold asciiToLowerN at h1
            unfold foldMatchesLowerAscii
            by_cases hr : 65 ≤ r ∧ r ≤ 90
            · rw [if_pos hr] at h1
              simp [h1]
            · rw [if_neg hr] at h1
              subst h1
              simp
          · exact ih cs' (fun x hx => hlow x (by simp [hx])) h2

/-! ### Claims -/

/--
Claim C5 counterexample: mode matching in `isSwarm` (`src/actions/util.go`)
is Go `strings.EqualFold`, i.e. Unicode simple case folding, not ASCII case
folding: the string "ſervice" (with U+017F LATIN SMALL LETTER LONG S) is
treated as service mode although it is not an ASCII case variant of
"service" or "swarm".
-/
theorem mode_matching_not_ascii_only :
    isSwarm "ſervice" = true ∧
    asciiFoldEq "ſervice" "service" = false ∧
    asciiFoldEq "ſervice" "swarm" = false := by
  decide

/--
Claim C5 (amended): every string equal to "service" or "swarm" under ASCII
case folding is treated as service/swarm mode by `isSwarm`; the matching is
Go Unicode simple case folding, which additionally accepts a few non-ASCII
fold-equivalents (such as U+017F for "s"), so acceptance is not limited to
ASCII case variants.
-/
theorem ascii_case_variants_select_swarm_mode (mode : String)
    (h : asciiFoldEq mode "service" = true ∨ asciiFoldEq mode "swarm" = true) :
    isSwarm mode = true := by
  unfold isSwarm
  rcases h with h | h
  · have h2 : (strCodes mode).map asciiToLowerN = (strCodes "service").map asciiToLowerN := by
      simpa only [asciiFoldEq, beq_iff_eq] using h
    rw [show (strCodes "service").map asciiToLowerN = strCodes "service" from by decide] at h2
    have := equalFold_of_asciiFold (strCodes mode) (strCodes "service") (by decide) h2
    simp [this]
  · have h2 : (strCodes mode).map asciiToLowerN = (strCodes "swarm").map asciiToLowerN := by
      simpa only [asciiFoldEq, beq_iff_eq] using h
    rw [show (strCodes "swarm").map asciiToLowerN = strCodes "swarm" from by decide] at h2
    have := equalFold_of_asciiFold (strCodes mode) (strCodes "swarm") (by decide) h2
    simp [this]

/-- Claim C5 witness: "SERVICE" is an ASCII case variant of "service" and is
accepted as service/swarm mode. -/
theorem ascii_case_variants_select_swarm_mode_witness :
    asciiFoldEq "SERVICE" "service" = true ∧ isSwarm "SERVICE" = true :=
  ⟨by decide, ascii_case_variants_select_swarm_mode "SERVICE" (Or.inl (by decide))⟩

/--
Claim C6: at startup, the bulk `ReloadAllServices` pass runs when the mode
is not service/swarm, with the parsed registry addresses, instance name,
mode, and derived listener address; it is skipped when the mode is
service/swarm and no registry addresses are configured.
-/
theorem startup_reload_all_services (cfg : ServeConfig) (env : String) :
    (isSwarm cfg.mode = false →
      (serveExecute cfg env).reloadAllServices =
        some ⟨parseConsulAddresses env, cfg.instanceName, cfg.mode,
              listenerUrl cfg.listenerAddress⟩) ∧
    (isSwarm cfg.mode = true → parseConsulAddresses env = [] →
      (serveExecute cfg env).reloadAllServices = none) := by
  constructor
  · intro h
    simp [serveExecute, h]
  · intro h1 h2
    simp [serveExecute, h1, h2]

/-- Claim C6 witness: with default mode the bulk reload runs with the
configured address, and with mode "SWarM" and no configured addresses it is
skipped. -/
theorem startup_reload_all_services_witness :
    (serveExecute { mode := "", instanceName := "proxy-test-instance",
                    listenerAddress := "" } "http://1.2.3.4:1234").reloadAllServices =
      some ⟨["http://1.2.3.4:1234"], "proxy-test-instance", "", ""⟩ ∧
    (serveExecute { mode := "SWarM", instanceName := "proxy-test-instance",
                    listenerAddress := "" } "").reloadAllServices = none := by
  constructor
  · have h := (startup_reload_all_services
      { mode := "", instanceName := "proxy-test-instance", listenerAddress := "" }
      "http://1.2.3.4:1234").1 (by decide)
    rw [h]
    decide
  · exact (startup_reload_all_services
      { mode := "SWarM", instanceName := "proxy-test-instance", listenerAddress := "" }
      "").2 (by decide) (by decide)

/--
Claim C8: startup normalization of the registry address list keeps the list
length (hence the order) of the comma-split configured addresses, leaves an
address that already carries a URL scheme unchanged, and prefixes `http://`
to an address that lacks one.
-/
theorem consul_address_normalization (env : String) (henv : env ≠ "") :
    (parseConsulAddresses env).length = (splitComma env.data).length ∧
    ∀ i, ∀ h : i < (splitComma env.data).length,
      ∃ h2 : i < (parseConsulAddresses env).length,
        (parseConsulAddresses env).get ⟨i, h2⟩ =
          (if hasUrlScheme (String.mk ((splitComma env.data).get ⟨i, h⟩)) = true
           then String.mk ((splitComma env.data).get ⟨i, h⟩)
           else "http://" ++ String.mk ((splitComma env.data).get ⟨i, h⟩)) := by
  unfold parseConsulAddresses normalizeAddresses
  rw [if_neg henv]
  constructor
  · simp
  · intro i h
    refine ⟨by simpa using h, ?_⟩
    simp [normalizeAddress]

/-- Claim C8 witness: "my-consul-1,http://my-consul-2" splits into two
addresses and the first, lacking a scheme, is prefixed with `http://`. -/
theorem consul_address_normalization_witness :
    (parseConsulAddresses "my-consul-1,http://my-consul-2").length = 2 ∧
    ∃ h2 : 0 < (parseConsulAddresses "my-consul-1,http://my-consul-2").length,
      (parseConsulAddresses "my-consul-1,http://my-consul-2").get ⟨0, h2⟩ =
        "http://my-consul-1" := by
  obtain ⟨hl, hg⟩ := consul_address_normalization "my-consul-1,http://my-consul-2" (by decide)
  refine ⟨by rw [hl]; decide, ?_⟩
  obtain ⟨h2, he⟩ := hg 0 (by decide)
  exact ⟨h2, by rw [he]; decide⟩

/--
Claim C9 counterexample: when the `CONSUL_ADDRESS` environment variable is
unset, `Serve.Execute` leaves `ConsulAddresses` as the empty slice (pinned
by `Test_Execute_SetsConsulAddressesToEmptySlice_WhenEnvVarIsNotset`), so
the list is not non-empty after bootstrap.
-/
theorem consulAddresses_empty_counterexample :
    (serveExecute { mode := "", instanceName := "proxy-test-instance",
                    listenerAddress := "" } "").consulAddresses = [] := by
  decide

/--
Claim C9 (amended): after `Serve.Execute` returns, `ConsulAddresses` is
empty exactly when the `CONSUL_ADDRESS` environment variable is unset or
empty; whenever the variable carries a non-empty value the list is
non-empty.
-/
theorem consulAddresses_empty_iff_env_unset (cfg : ServeConfig) (env : String) :
    (serveExecute cfg env).consulAddresses = [] ↔ env = "" := by
  have hc : (serveExecute cfg env).consulAddresses = parseConsulAddresses env := by
    unfold serveExecute
    split <;> rfl
  rw [hc]
  constructor
  · intro h
    by_contra hne
    exact parseConsulAddresses_ne_nil env hne h
  · intro h
    rw [h]
    rfl

/--
Claim C1: an inbound reconfigure or remove request carrying distribute=true
never invokes the local `ReconfigureEngine`/`RemoveEngine` `Execute`; every
collaborator invocation it makes is the peer fan-out, and when the request
passes validation the fan-out is the single invocation made.
-/
theorem distribute_suppresses_local_engine (w : World) (req : Request)
    (hpath : req.path = "/v1/docker-flow-proxy/reconfigure" ∨
             req.path = "/v2/docker-flow-proxy/reconfigure" ∨
             req.path = "/v1/docker-flow-proxy/remove" ∨
             req.path = "/v2/docker-flow-proxy/remove")
    (hdist : req.distribute = true) :
    (∀ e ∈ (serveHTTP w req).effects, e = Effect.distributeFanOut) ∧
    (isValidReconf w.mode req.sr = true →
      (isSwarm w.mode = true → req.sr.port ≠ "") →
      (serveHTTP w req).effects = [Effect.distributeFanOut]) := by
  rcases hpath with h | h | h | h
  case inl | inr.inl =>
    rw [serveHTTP_reconfigure_eq w req (by tauto), hdist]
    refine ⟨reconfigureHandler_distribute_effects w req.sr, ?_⟩
    intro hv hp
    rw [reconfigureHandler_distribute_valid w req.sr hv (fun hc => hp hc.1 hc.2)]
  all_goals
    rw [serveHTTP_remove_eq w req (by tauto), hdist]
    refine ⟨removeHandler_distribute_effects w req.sr.serviceName req.sr.aclName, ?_⟩
    intro hv _
    rw [removeHandler_distribute_valid w req.sr.serviceName req.sr.aclName
          (isValidReconf_serviceName_ne w.mode req.sr hv)]

/-- Claim C1 witness: a valid reconfigure request with distribute=true makes
exactly the peer fan-out invocation. -/
theorem distribute_suppresses_local_engine_witness :
    (serveHTTP { peerResults := [true] }
      { path := "/v1/docker-flow-proxy/reconfigure", distribute := true,
        sr := { serviceName := "myService", servicePath := ["/api"] } }).effects =
      [Effect.distributeFanOut] :=
  (distribute_suppresses_local_engine { peerResults := [true] }
      { path := "/v1/docker-flow-proxy/reconfigure", distribute := true,
        sr := { serviceName := "myService", servicePath := ["/api"] } }
      (Or.inl rfl) rfl).2 (by decide) (by decide)

/--
Claim C2: for every distributed reconfigure or remove operation (a request
carrying distribute=true that reaches the fan-out: a non-empty service name,
and for reconfigure a descriptor that passes validation), if at least one
peer call fails the aggregate result reported to the original caller is
HTTP 500, regardless of the other peers' outcomes.
-/
theorem distribute_partial_failure_reports_500 (w : World) (req : Request)
    (hpath : req.path = "/v1/docker-flow-proxy/reconfigure" ∨
             req.path = "/v2/docker-flow-proxy/reconfigure" ∨
             req.path = "/v1/docker-flow-proxy/remove" ∨
             req.path = "/v2/docker-flow-proxy/remove")
    (hdist : req.distribute = true)
    (hname : req.sr.serviceName ≠ "")
    (hvalid : (req.path = "/v1/docker-flow-proxy/reconfigure" ∨
               req.path = "/v2/docker-flow-proxy/reconfigure") →
      isValidReconf w.mode req.sr = true ∧ (isSwarm w.mode = true → req.sr.port ≠ ""))
    (hfail : false ∈ w.peerResults) :
    (serveHTTP w req).status = 500 := by
  rcases hpath with h | h | h | h
  case inl | inr.inl =>
    obtain ⟨hv, hp⟩ := hvalid (by tauto)
    rw [serveHTTP_reconfigure_eq w req (by tauto), hdist,
        reconfigureHandler_distribute_valid w req.sr hv (fun hc => hp hc.1 hc.2)]
    exact distributeStatus_of_failure w.peerResults hfail
  all_goals
    rw [serveHTTP_remove_eq w req (by tauto), hdist,
        removeHandler_distribute_valid w req.sr.serviceName req.sr.aclName hname]
    exact distributeStatus_of_failure w.peerResults hfail

/-- Claim C2 witness: a distributed remove carrying only a service name (the
scenario of `Test_ServeHTTP_WritesErrorHeader_WhenRemoveDistributeIsTrueAndError`)
against two peers, the second failing, yields status 500. -/
theorem distribute_partial_failure_reports_500_witness :
    (serveHTTP { peerResults := [true, false] }
      { path := "/v1/docker-flow-proxy/remove", distribute := true,
        sr := { serviceName := "myService" } }).status = 500 :=
  distribute_partial_failure_reports_500 { peerResults := [true, false] }
    { path := "/v1/docker-flow-proxy/remove", distribute := true,
      sr := { serviceName := "myService" } }
    (Or.inr (Or.inr (Or.inl rfl))) rfl (by decide) (by decide) (by decide)

/--
Claim C3: a reconfigure or remove request with an empty `ServiceName` is
rejected with 400, no collaborator is invoked (in particular no engine
`Execute`), and the `ConfigStore` is unchanged.
-/
theorem empty_serviceName_rejected (w : World) (req : Request) (store : ConfigStore)
    (hpath : req.path = "/v1/docker-flow-proxy/reconfigure" ∨
             req.path = "/v2/docker-flow-proxy/reconfigure" ∨
             req.path = "/v1/docker-flow-proxy/remove" ∨
             req.path = "/v2/docker-flow-proxy/remove")
    (hname : req.sr.serviceName = "") :
    (serveHTTP w req).status = 400 ∧ (serveHTTP w req).effects = [] ∧
    applyEffects store (serveHTTP w req).effects = store := by
  rcases hpath with h | h | h | h
  case inl | inr.inl =>
    rw [serveHTTP_reconfigure_eq w req (by tauto)]
    unfold reconfigureHandler isValidReconf
    rw [if_pos hname]
    exact ⟨rfl, rfl, rfl⟩
  all_goals
    rw [serveHTTP_remove_eq w req (by tauto)]
    unfold removeHandler
    rw [if_pos hname]
    exact ⟨rfl, rfl, rfl⟩

/-- Claim C3 witness: a reconfigure request with no serviceName query gets
400 and leaves a one-entry store untouched. -/
theorem empty_serviceName_rejected_witness :
    (serveHTTP {} { path := "/v1/docker-flow-proxy/reconfigure" }).status = 400 ∧
    (serveHTTP {} { path := "/v1/docker-flow-proxy/reconfigure" }).effects = [] ∧
    applyEffects [("other", { serviceName := "other" })]
      (serveHTTP {} { path := "/v1/docker-flow-proxy/reconfigure" }).effects =
      [("other", { serviceName := "other" })] :=
  empty_serviceName_rejected {} { path := "/v1/docker-flow-proxy/reconfigure" }
    [("other", { serviceName := "other" })] (Or.inl rfl) rfl

/--
Claim C4: a reconfigure request in service or swarm mode (matched
case-insensitively through `isSwarm`) with an empty port is rejected with
400 and no collaborator is invoked — in particular no template generation
and no side effect happen.
-/
theorem swarm_missing_port_rejected (w : World) (req : Request)
    (hpath : req.path = "/v1/docker-flow-proxy/reconfigure" ∨
             req.path = "/v2/docker-flow-proxy/reconfigure")
    (hmode : isSwarm w.mode = true)
    (hport : req.sr.port = "") :
    (serveHTTP w req).status = 400 ∧ (serveHTTP w req).effects = [] := by
  rw [serveHTTP_reconfigure_eq w req hpath]
  unfold reconfigureHandler
  by_cases hv : isValidReconf w.mode req.sr = false
  · rw [if_pos hv]
    exact ⟨rfl, rfl⟩
  · rw [if_neg hv, if_pos ⟨hmode, hport⟩]
    exact ⟨rfl, rfl⟩

/-- Claim C4 witness: mode "swARM" with a path-carrying request and no port
gets 400 with no invocations. -/
theorem swarm_missing_port_rejected_witness :
    (serveHTTP { mode := "swARM" }
      { path := "/v1/docker-flow-proxy/reconfigure",
        sr := { serviceName := "myService", servicePath := ["/api"] } }).status = 400 ∧
    (serveHTTP { mode := "swARM" }
      { path := "/v1/docker-flow-proxy/reconfigure",
        sr := { serviceName := "myService", servicePath := ["/api"] } }).effects = [] :=
  swarm_missing_port_rejected { mode := "swARM" }
    { path := "/v1/docker-flow-proxy/reconfigure",
      sr := { serviceName := "myService", servicePath := ["/api"] } }
    (Or.inl rfl) (by decide) rfl

/--
Claim C7 counterexample: a reconfigure request with a non-empty service
name, an empty `ServicePath`, and both Consul template paths supplied, in
default mode (which does not imply port-based derivation), is accepted with
200 and the engine executes — it is not rejected with 400 (pinned by
`Test_ServeHTTP_ReturnsJson_WhenConsulTemplatePathIsPresent` and
`Test_ServeHTTP_InvokesReconfigureExecute_WhenConsulTemplatePathIsPresent`).
-/
theorem servicePath_counterexample :
    (serveHTTP {}
      { path := "/v1/docker-flow-proxy/reconfigure",
        sr := { serviceName := "myService",
                consulTemplateFePath := "/path/to/consul/fe/template",
                consulTemplateBePath := "/path/to/consul/be/template" } }) =
    ⟨200, [Effect.reconfigureExec
      { serviceName := "myService",
        consulTemplateFePath := "/path/to/consul/fe/template",
        consulTemplateBePath := "/path/to/consul/be/template" }]⟩ := by
  decide

/--
Claim C7 (amended): a reconfigure request with a non-empty `ServiceName`
but empty `ServicePath` is rejected with 400 and the engine does not
execute, provided the request also does not supply both Consul template
paths and the mode does not imply health-check-port based derivation.
-/
theorem servicePath_required_unless_derivable (w : World) (req : Request)
    (hpath : req.path = "/v1/docker-flow-proxy/reconfigure" ∨
             req.path = "/v2/docker-flow-proxy/reconfigure")
    (hname : req.sr.serviceName ≠ "")
    (hsp : req.sr.servicePath = [])
    (hct : req.sr.consulTemplateFePath = "" ∨ req.sr.consulTemplateBePath = "")
    (hmode : isSwarm w.mode = false) :
    (serveHTTP w req).status = 400 ∧ (serveHTTP w req).effects = [] := by
  rw [serveHTTP_reconfigure_eq w req hpath]
  have hv : isValidReconf w.mode req.sr = false := by
    unfold isValidReconf
    rw [if_neg hname, if_neg (by simp [hsp]), if_neg (by tauto), if_neg (by simp [hmode])]
  unfold reconfigureHandler
  rw [if_pos hv]
  exact ⟨rfl, rfl⟩

/-- Claim C7 witness: serviceName alone, with no servicePath and no Consul
template paths, in default mode, gets 400 with no invocations. -/
theorem servicePath_required_unless_derivable_witness :
    (serveHTTP {} { path := "/v1/docker-flow-proxy/reconfigure",
                    sr := { serviceName := "my-service" } }).status = 400 ∧
    (serveHTTP {} { path := "/v1/docker-flow-proxy/reconfigure",
                    sr := { serviceName := "my-service" } }).effects = [] :=
  servicePath_required_unless_derivable {}
    { path := "/v1/docker-flow-proxy/reconfigure", sr := { serviceName := "my-service" } }
    (Or.inl rfl) (by decide) rfl (Or.inl rfl) (by decide)

/--
Claim C10: a request to the certificate upload URL whose method is not PUT
is answered with 404 and makes no collaborator invocation — in particular
the certificate store's `Put` is never invoked.
-/
theorem cert_non_put_rejected (w : World) (req : Request)
    (hpath : req.path = "/v1/docker-flow-proxy/cert")
    (hm : req.method ≠ "PUT") :
    (serveHTTP w req).status = 404 ∧ (serveHTTP w req).effects = [] := by
  rw [serveHTTP_cert_eq w req hpath, if_neg hm]
  exact ⟨rfl, rfl⟩

/-- Claim C10 witness: a GET of the certificate upload URL gets 404 with no
invocations. -/
theorem cert_non_put_rejected_witness :
    (serveHTTP {} { path := "/v1/docker-flow-proxy/cert", method := "GET" }).status = 404 ∧
    (serveHTTP {} { path := "/v1/docker-flow-proxy/cert", method := "GET" }).effects = [] :=
  cert_non_put_rejected {} { path := "/v1/docker-flow-proxy/cert", method := "GET" }
    rfl (by decide)
